import Mathlib

/-!
Verification of the `wfm-ltf-py` workforce-forecasting pipeline.

The development shallowly embeds the three Python sources
(`project/forecasting_script.py`, `project/app.py`, `project/data/combined.py`):

* pandas float cells are modelled as exact rationals extended with the IEEE
  special values `inf`, `-inf` and `nan` (`PFloat`); float rounding itself is
  not modelled, arithmetic is exact over `ℚ`;
* a data row carries the `Date`, `Membership_Count`, `Calls_Received` and
  `Historical_Call_Volume` columns, a missing cell being `none`;
* dates are modelled at month granularity as natural numbers (month index);
* the Prophet model's point predictions and interval bounds are an opaque
  parameter `model : ℕ → ℚ × ℚ × ℚ` (the library is third-party code); the
  deterministic frame produced by `make_future_dataframe` is modelled from the
  library's documented behaviour;
* exceptions are `Except` values, a caught-and-printed exception is recorded
  as the printed message.
-/

namespace WFM

/-- A pandas float cell: an exact rational, `inf`, `-inf` or `NaN`. -/
inductive PFloat where
  | val (q : ℚ)
  | inf
  | neginf
  | nan
deriving DecidableEq

/-- IEEE semantics of dividing two finite floats, with exact rationals in
place of rounded floats: `a / 0` is `±inf` for `a ≠ 0` and `NaN` for `0 / 0`. -/
def pdivQ (a b : ℚ) : PFloat :=
  if b = 0 then
    if 0 < a then PFloat.inf else if a < 0 then PFloat.neginf else PFloat.nan
  else PFloat.val (a / b)

/-- Dividing two pandas cells that are finite or missing (`NaN`). -/
def pdivCell : Option ℚ → Option ℚ → PFloat
  | none, _ => PFloat.nan
  | _, none => PFloat.nan
  | some a, some b => pdivQ a b

/-- IEEE addition on `PFloat`. -/
def padd : PFloat → PFloat → PFloat
  | PFloat.nan, _ => PFloat.nan
  | _, PFloat.nan => PFloat.nan
  | PFloat.val a, PFloat.val b => PFloat.val (a + b)
  | PFloat.inf, PFloat.neginf => PFloat.nan
  | PFloat.neginf, PFloat.inf => PFloat.nan
  | PFloat.inf, _ => PFloat.inf
  | _, PFloat.inf => PFloat.inf
  | PFloat.neginf, _ => PFloat.neginf
  | _, PFloat.neginf => PFloat.neginf

/-- IEEE multiplication on `PFloat`. -/
def pmul : PFloat → PFloat → PFloat
  | PFloat.nan, _ => PFloat.nan
  | _, PFloat.nan => PFloat.nan
  | PFloat.val a, PFloat.val b => PFloat.val (a * b)
  | PFloat.inf, PFloat.val b =>
      if 0 < b then PFloat.inf else if b < 0 then PFloat.neginf else PFloat.nan
  | PFloat.val a, PFloat.inf =>
      if 0 < a then PFloat.inf else if a < 0 then PFloat.neginf else PFloat.nan
  | PFloat.neginf, PFloat.val b =>
      if 0 < b then PFloat.neginf else if b < 0 then PFloat.inf else PFloat.nan
  | PFloat.val a, PFloat.neginf =>
      if 0 < a then PFloat.neginf else if a < 0 then PFloat.inf else PFloat.nan
  | PFloat.inf, PFloat.inf => PFloat.inf
  | PFloat.inf, PFloat.neginf => PFloat.neginf
  | PFloat.neginf, PFloat.inf => PFloat.neginf
  | PFloat.neginf, PFloat.neginf => PFloat.inf

/-- Sum of a list of pandas cells. -/
def psum (l : List PFloat) : PFloat :=
  l.foldl padd (PFloat.val 0)

/-- Models pandas `Series.mean()`: `NaN` cells are skipped (`skipna=True` default);
the mean of an all-`NaN` (or empty) column is `NaN`. -/
def pmean (l : List PFloat) : PFloat :=
  let nn := l.filter fun x => x ≠ PFloat.nan
  if nn.isEmpty then PFloat.nan
  else
    match psum nn with
    | PFloat.val s => PFloat.val (s / nn.length)
    | x => x

/-- An observation row of the combined dataset. `Date` is a month index;
the numeric columns are `none` where the CSV cell is missing (`NaN`). -/
structure Row where
  date : ℕ
  membership : Option ℚ
  calls_received : Option ℚ
  hcv : Option ℚ
deriving DecidableEq

/-- Embeds `forecasting_script.py` lines 67-70: `Contact_Rate` helper using
`Calls_Received / Membership_Count` (defined in the script but never called). -/
def Contact_Rate (rows : List Row) : List PFloat :=
  rows.map fun r => pdivCell r.calls_received r.membership

/-- Embeds `forecasting_script.py` lines 105-107: the `Contact_Rate` column actually
used, `Historical_Call_Volume / Membership_Count`, one cell per row. The
division is pandas elementwise division, with no guard on zero membership. -/
def calculate_contact_rate (rows : List Row) : List PFloat :=
  rows.map fun r => pdivCell r.hcv r.membership

/-- Forward fill of one column, carrying the last valid value seen so far
(`carry`); a cell with no earlier valid value stays missing. -/
def ffillCol (carry : Option ℚ) : List (Option ℚ) → List (Option ℚ)
  | [] => []
  | x :: xs =>
    match x with
    | some v => some v :: ffillCol (some v) xs
    | none => carry :: ffillCol carry xs

/-- Embeds `forecasting_script.py` line 62: `data.fillna(method="ffill")` on one
column. pandas forward fill starts with no carried value, so leading missing
cells are left missing; there is no backward-fill pass in the script. -/
def fillna_ffill (col : List (Option ℚ)) : List (Option ℚ) :=
  ffillCol none col

/-- Row-level forward fill: `fillna` acts on each column independently. -/
def fillna_ffill_rows (rows : List Row) : List Row :=
  let m := fillna_ffill (rows.map Row.membership)
  let c := fillna_ffill (rows.map Row.calls_received)
  let h := fillna_ffill (rows.map Row.hcv)
  (List.range rows.length).map fun i =>
    ⟨(rows.getD i ⟨0, none, none, none⟩).date, m.getD i none, c.getD i none,
      h.getD i none⟩

/-- Largest date of the historical frame (`self.history_dates.max()`). -/
def lastDate (ds : List ℕ) : ℕ :=
  ds.foldl max 0

/-- Modelled from the third-party Prophet library's documented behaviour:
`make_future_dataframe(periods, freq="M")` returns the historical dates
followed by the next `periods` month-end dates strictly after the last
historical date. Dates are month indices here, so those future dates are
`lastDate + 1, …, lastDate + periods`. -/
def make_future_dataframe (ds : List ℕ) (periods : ℕ) : List ℕ :=
  ds ++ (List.range periods).map fun i => lastDate ds + 1 + i

/-- One row of the frame returned by `forecast_membership` (`ds`, `yhat`,
`yhat_lower`, `yhat_upper`). -/
structure FRow where
  ds : ℕ
  yhat : ℚ
  yhat_lower : ℚ
  yhat_upper : ℚ
deriving DecidableEq

/-- Embeds `forecasting_script.py` lines 77-83, the `method="prophet"` branch taken
at line 99: fit on `(Date, Membership_Count)`, build the future frame with
`make_future_dataframe(periods=12, freq="M")` and predict one row per date of
that frame. The fitted model's predictions are the opaque parameter
`model : ds ↦ (yhat, yhat_lower, yhat_upper)`. -/
def forecast_membership (data : List (ℕ × ℚ)) (model : ℕ → ℚ × ℚ × ℚ) :
    List FRow :=
  (make_future_dataframe (data.map Prod.fst) 12).map fun d =>
    ⟨d, (model d).1, (model d).2.1, (model d).2.2⟩

/-- Embeds `forecasting_script.py` lines 34-46: `load_and_combine_csv`. The input is
the parsed contents of the CSV files found in the folder. When there are none,
`FileNotFoundError("No CSV files found in the specified folder.")` is raised,
caught by the `except` branch, printed as `Error loading files: …`, and an
empty frame is returned; the second component records the printed message. -/
def load_and_combine_csv (files : List (List Row)) :
    List Row × Option String :=
  if files.isEmpty then
    ([], some "Error loading files: No CSV files found in the specified folder.")
  else (files.flatten, none)

/-- One row of the report file `forecast_results_2026.csv` (`ds`, `yhat`,
`yhat_lower`, `yhat_upper`, `Forecasted_Call_Volume`). -/
structure OutRow where
  ds : ℕ
  yhat : ℚ
  yhat_lower : ℚ
  yhat_upper : ℚ
  fcv : PFloat
deriving DecidableEq

/-- Embeds `project/data/combined.py` lines 5-22: `combine_csv_files` reads every
CSV of the directory and concatenates them. With no CSV files the list of
frames is empty and `pd.concat([])` raises
`ValueError("No objects to concatenate")` before anything is written; the
`Except.ok` value is the frame written to the output file. -/
def combine_csv_files (files : List (List Row)) : Except String (List Row) :=
  if files.isEmpty then Except.error "No objects to concatenate"
  else Except.ok files.flatten

/-- Top-level flow of `forecasting_script.py` (lines 48-125): load and
combine, abort with `ValueError` when the frame is empty (lines 53-54),
forward-fill (line 62), forecast membership (line 99), derive the
`Contact_Rate` column and its mean (lines 109-110), attach
`Forecasted_Call_Volume = yhat * avg_contact_rate` (line 111) and return the
frame written to the report file (line 125). The validation block (lines
116-120) only prints diagnostics; it is modelled separately by
`validation_actual` / `validation_predicted_code`. An `Except.error` is an
uncaught exception: no later stage runs and no output file is written. -/
def pipeline (files : List (List Row)) (model : ℕ → ℚ × ℚ × ℚ) :
    Except String (List OutRow) :=
  let loaded := load_and_combine_csv files
  let data := loaded.1
  if data.isEmpty then
    Except.error "DataFrame is empty. Check input folder path or file format."
  else
    let cleaned := fillna_ffill_rows data
    let series := cleaned.map fun r => (r.date, (r.membership.getD 0))
    let fc := forecast_membership series model
    let rated := calculate_contact_rate cleaned
    let avg := pmean rated
    Except.ok (fc.map fun r =>
      ⟨r.ds, r.yhat, r.yhat_lower, r.yhat_upper, pmul (PFloat.val r.yhat) avg⟩)

/-- Embeds `forecasting_script.py` line 116: `actual = data["Membership_Count"][-12:]`,
the last 12 actual membership values. -/
def validation_actual (ms : List ℚ) : List ℚ :=
  ms.drop (ms.length - 12)

/-- Embeds `forecasting_script.py` line 117: `predicted = forecasted_membership["yhat"][:12]`,
the FIRST 12 rows of the prediction column. Prophet's frame holds in-sample
predictions for all historical dates followed by the 12 future rows, so these
are the predictions for the first 12 historical periods. -/
def validation_predicted_code (yhat : List ℚ) : List ℚ :=
  yhat.take 12

/-- The prediction rows the specification describes: the in-sample predictions
for the same last 12 historical periods as `validation_actual` (the in-sample
block is the first `n` rows of the prediction column, `n` the history length). -/
def validation_predicted_aligned (ms yhat : List ℚ) : List ℚ :=
  (yhat.take ms.length).drop (ms.length - 12)

/-- Machine epsilon of `float64`, `2 ^ (-52)`, used by scikit-learn. -/
def sk_eps : ℚ :=
  1 / 4503599627370496

/-- Models scikit-learn's `mean_absolute_percentage_error`: the denominator is
`max(eps, |actual|)`, so a zero actual is clamped to machine epsilon instead
of raising or producing infinity. -/
def sk_mape (actual predicted : List ℚ) : ℚ :=
  (((actual.zip predicted).map fun p => |p.1 - p.2| / max sk_eps |p.1|).sum) /
    (actual.length : ℚ)

/-- Models scikit-learn's `mean_squared_error` (the script then takes `np.sqrt`). -/
def sk_mse (actual predicted : List ℚ) : ℚ :=
  (((actual.zip predicted).map fun p => (p.1 - p.2) ^ 2).sum) /
    (actual.length : ℚ)

/-- Embeds `app.py` line 14 (and lines 140-141 of the script): the dashboard's
reconstructed average contact rate, column sum over column sum. -/
def avg_contact_rate_app (fm fcv : List ℚ) : ℚ :=
  fcv.sum / fm.sum

/-- Embeds `app.py` line 24 / `forecasting_script.py` line 141:
`adjusted_volume = membership * avg_contact_rate`. -/
def adjusted_volume (membership rate : ℚ) : ℚ :=
  membership * rate

/-- Embeds `app.py` line 27 / `forecasting_script.py` line 145:
`agents_needed = adjusted_volume * aht / (occupancy / 100)
/ (1 - shrinkage / 100) / (8 * 3600)`. -/
def agents_needed (adjusted aht shrinkage occupancy : ℚ) : ℚ :=
  adjusted * aht / (occupancy / 100) / (1 - shrinkage / 100) / (8 * 3600)

/-- Python's built-in `round`: round half to even. -/
def pyround (q : ℚ) : ℤ :=
  if q - ⌊q⌋ < 1 / 2 then ⌊q⌋
  else if 1 / 2 < q - ⌊q⌋ then ⌊q⌋ + 1
  else if ⌊q⌋ % 2 = 0 then ⌊q⌋ else ⌊q⌋ + 1

/-- Claim C1, counterexample: on a dataset whose single record has
`Membership_Count = 0` and `Historical_Call_Volume = 5`, `calculate_contact_rate`
does not fail — it returns the numeric value `inf` for that record. -/
theorem contact_rate_zero_membership_cex :
    calculate_contact_rate [⟨0, some 0, some 3, some 5⟩] = [PFloat.inf] := by
  decide

/-- Claim C1 (amended): `calculate_contact_rate` never raises; for every
record with `Membership_Count = 0` and a positive `Historical_Call_Volume`,
the `Contact_Rate` cell of that record is `inf` (it is `NaN` when the call
volume is zero or missing, by `pdivQ`/`pdivCell`). -/
theorem contact_rate_zero_membership_inf (rows : List Row) (k : ℕ)
    (hk : k < rows.length) (c : ℚ) (hcpos : 0 < c)
    (hm : (rows.getD k ⟨0, none, none, none⟩).membership = some 0)
    (hc : (rows.getD k ⟨0, none, none, none⟩).hcv = some c) :
    (calculate_contact_rate rows).getD k PFloat.nan = PFloat.inf := by
  rw [List.getD_eq_getElem rows _ hk] at hm hc
  have hlen : k < (calculate_contact_rate rows).length := by
    simpa [calculate_contact_rate] using hk
  rw [List.getD_eq_getElem _ _ hlen]
  simp [calculate_contact_rate, hm, hc, pdivCell, pdivQ, hcpos]

/-- Claim C1 witness: the amended statement instantiated on a concrete
one-record dataset with zero membership and call volume 5. -/
theorem contact_rate_zero_membership_inf_witness :
    (0 : ℚ) < 5 ∧
      (calculate_contact_rate [⟨3, some 0, none, some 5⟩]).getD 0 PFloat.nan
        = PFloat.inf :=
  ⟨by norm_num,
   contact_rate_zero_membership_inf [⟨3, some 0, none, some 5⟩] 0 (by decide) 5
     (by norm_num) (by decide) (by decide)⟩

/-- Claim C4, counterexample: with no CSV inputs, the error that terminates
the run is the empty-frame `ValueError`, not a "no input files found" error —
the `FileNotFoundError` carrying that message was caught inside
`load_and_combine_csv`. -/
theorem pipeline_empty_error_cex :
    pipeline [] (fun _ => (0, 0, 0))
      = Except.error "DataFrame is empty. Check input folder path or file format." ∧
    "DataFrame is empty. Check input folder path or file format."
      ≠ "No CSV files found in the specified folder." :=
  ⟨rfl, by decide⟩

/-- Claim C4 (amended): on a directory with no CSV files the loader raises
and catches its internal `FileNotFoundError`, printing
`Error loading files: No CSV files found in the specified folder.`, and
returns an empty frame; the run then aborts with the
`DataFrame is empty` `ValueError` before the forecast stage executes (for any
model) and no output is written (`Except.error` carries no output frame).
`combine_csv_files` likewise aborts, with pandas' concatenation error, before
writing its output. -/
theorem pipeline_no_inputs_aborts :
    (∀ model : ℕ → ℚ × ℚ × ℚ,
      pipeline [] model
        = Except.error "DataFrame is empty. Check input folder path or file format.") ∧
    (load_and_combine_csv []).2
      = some "Error loading files: No CSV files found in the specified folder." ∧
    combine_csv_files ([] : List (List Row))
      = Except.error "No objects to concatenate" :=
  ⟨fun _ => rfl, rfl, rfl⟩

/-- Claim C2, code bug: with 13 historical membership values `1..13` and a
model whose in-sample prediction for every period equals the actual
(`yhat = 1..13` on the 13 historical rows, then 12 future rows), the pairs
the specification describes are perfectly aligned, so MAPE is `0`; the code
instead zips the last 12 actuals with the FIRST 12 entries of the prediction
column (`yhat[:12]`), pairing each actual with the prediction of the previous
period, and reports a nonzero MAPE even for this perfect fit. -/
theorem validation_misalignment :
    sk_mape
      (validation_actual [1, 2, 3, 4, 5, 6, 7, 8, 9, 10, 11, 12, 13])
      (validation_predicted_aligned [1, 2, 3, 4, 5, 6, 7, 8, 9, 10, 11, 12, 13]
        [1, 2, 3, 4, 5, 6, 7, 8, 9, 10, 11, 12, 13, 14, 15, 16, 17, 18, 19, 20,
         21, 22, 23, 24, 25]) = 0 ∧
    sk_mape
      (validation_actual [1, 2, 3, 4, 5, 6, 7, 8, 9, 10, 11, 12, 13])
      (validation_predicted_code
        [1, 2, 3, 4, 5, 6, 7, 8, 9, 10, 11, 12, 13, 14, 15, 16, 17, 18, 19, 20,
         21, 22, 23, 24, 25]) ≠ 0 := by
  constructor
  · norm_num [sk_mape, validation_actual, validation_predicted_aligned, sk_eps]
  · norm_num [sk_mape, validation_actual, validation_predicted_code, sk_eps]

/-- Claim C5, counterexample: a validation input whose 12 actuals contain a
zero does not make the validator fail — scikit-learn's MAPE clamps the zero
denominator to machine epsilon and emits the finite value `2 ^ 50 / 3`. -/
theorem mape_zero_actual_cex :
    sk_mape [0, 1, 1, 1, 1, 1, 1, 1, 1, 1, 1, 1]
      [1, 1, 1, 1, 1, 1, 1, 1, 1, 1, 1, 1] = 1125899906842624 / 3 := by
  norm_num [sk_mape, sk_eps]

/-- Claim C5 (amended): the validator does not fail on zero actuals; a pair
with actual `0` contributes `|predicted| * 2 ^ 52` to the sum (the denominator
is clamped to machine epsilon), so the reported MAPE is a finite rational at
least `|predicted| * 2 ^ 52 / n` — astronomically large but neither an error
nor infinity. -/
theorem mape_zero_actual_huge (a p : List ℚ) (k : ℕ)
    (hka : k < a.length) (hkp : k < p.length) (hz : a.getD k 0 = 0) :
    |p.getD k 0| * 4503599627370496 / (a.length : ℚ) ≤ sk_mape a p := by
  have hkz : k < (a.zip p).length := by
    rw [List.length_zip]
    omega
  have hkm : k < ((a.zip p).map fun q => |q.1 - q.2| / max sk_eps |q.1|).length := by
    simpa using hkz
  have epspos : (0 : ℚ) < sk_eps := by norm_num [sk_eps]
  have hnonneg :
      ∀ x ∈ (a.zip p).map fun q => |q.1 - q.2| / max sk_eps |q.1|, 0 ≤ x := by
    intro x hx
    obtain ⟨q, _, rfl⟩ := List.mem_map.mp hx
    exact div_nonneg (abs_nonneg _) (le_trans epspos.le (le_max_left _ _))
  have hz2 : a[k] = 0 := by rwa [List.getD_eq_getElem _ _ hka] at hz
  have hel : (((a.zip p).map fun q => |q.1 - q.2| / max sk_eps |q.1|).getD k 0)
      = |p.getD k 0| * 4503599627370496 := by
    rw [List.getD_eq_getElem _ _ hkm, List.getElem_map, List.getElem_zip,
      List.getD_eq_getElem _ _ hkp, hz2]
    rw [zero_sub, abs_neg, abs_zero, max_eq_left epspos.le]
    simp only [sk_eps]
    rw [one_div, div_eq_mul_inv, inv_inv]
  have hmem : (((a.zip p).map fun q => |q.1 - q.2| / max sk_eps |q.1|).getD k 0)
      ∈ ((a.zip p).map fun q => |q.1 - q.2| / max sk_eps |q.1|) := by
    rw [List.getD_eq_getElem _ _ hkm]
    exact List.getElem_mem hkm
  have hle := List.single_le_sum hnonneg _ hmem
  rw [hel] at hle
  have hlenpos : (0 : ℚ) < (a.length : ℚ) := by
    have : 0 < a.length := by omega
    exact_mod_cast this
  rw [sk_mape]
  exact (div_le_div_iff_of_pos_right hlenpos).mpr hle

/-- Claim C5 witness: the amended statement instantiated on actuals `[0, 1]`
and predictions `[2, 1]`. -/
theorem mape_zero_actual_huge_witness :
    (0 : ℕ) < 2 ∧ ([(0 : ℚ), 1].getD 0 0 = 0) ∧
      |([(2 : ℚ), 1]).getD 0 0| * 4503599627370496 / (([(0 : ℚ), 1].length : ℚ))
        ≤ sk_mape [0, 1] [2, 1] :=
  ⟨by norm_num, by norm_num,
   mape_zero_actual_huge [0, 1] [2, 1] 0 (by norm_num) (by norm_num) (by norm_num)⟩

/-- Characterization of pandas forward fill: position `j` of `ffillCol carry col`
holds a value exactly when the carry does or some cell at position `≤ j` did. -/
theorem ffillCol_getD_isSome (carry : Option ℚ) (col : List (Option ℚ)) :
    ∀ j, j < col.length →
      (((ffillCol carry col).getD j none).isSome ↔
        carry.isSome ∨ ∃ i, i ≤ j ∧ (col.getD i none).isSome) := by
  induction col generalizing carry with
  | nil =>
    intro j hj
    simp at hj
  | cons x xs ih =>
    intro j hj
    cases x with
    | some v =>
      cases j with
      | zero =>
        constructor
        · intro _
          exact Or.inr ⟨0, le_refl 0, by simp⟩
        · intro _
          simp [ffillCol]
      | succ j =>
        have hj2 : j < xs.length := by simpa using hj
        simp only [ffillCol, List.getD_cons_succ]
        rw [ih (some v) j hj2]
        constructor
        · intro _
          exact Or.inr ⟨0, Nat.zero_le _, by simp⟩
        · intro _
          exact Or.inl rfl
    | none =>
      cases j with
      | zero =>
        simp only [ffillCol, List.getD_cons_zero]
        constructor
        · intro h
          exact Or.inl h
        · rintro (h | ⟨i, hi0, hsome⟩)
          · exact h
          · have : i = 0 := Nat.le_zero.mp hi0
            subst this
            simp at hsome
      | succ j =>
        have hj2 : j < xs.length := by simpa using hj
        simp only [ffillCol, List.getD_cons_succ]
        rw [ih carry j hj2]
        constructor
        · rintro (h | ⟨i, hij, hsome⟩)
          · exact Or.inl h
          · exact Or.inr ⟨i + 1, Nat.succ_le_succ hij, by simpa using hsome⟩
        · rintro (h | ⟨i, hij, hsome⟩)
          · exact Or.inl h
          · cases i with
            | zero => simp at hsome
            | succ i =>
              exact Or.inr ⟨i, Nat.succ_le_succ_iff.mp hij, by simpa using hsome⟩

/-- Claim C6, counterexample: the column `[missing, 5]` has a valid value, yet
after the script's cleaning step (`fillna(method="ffill")`, forward only) its
leading cell is still missing — there is no backward pass. -/
theorem ffill_leading_gap_cex :
    fillna_ffill [none, some (5 : ℚ)] = [none, some 5] ∧
      some (5 : ℚ) ∈ [none, some (5 : ℚ)] ∧
      none ∈ fillna_ffill [none, some (5 : ℚ)] := by
  refine ⟨?_, ?_, ?_⟩ <;> decide

/-- Claim C6 (amended): the cleaning step forward-fills only: after cleaning,
cell `j` of a numeric column is present exactly when some cell at position
`≤ j` was present before; in particular leading gaps (cells before the first
valid value) remain missing, so a column whose first valid value is not at
position 0 still has missing values after cleaning. -/
theorem fillna_ffill_filled_iff (col : List (Option ℚ)) (j : ℕ)
    (hj : j < col.length) :
    ((fillna_ffill col).getD j none).isSome ↔
      ∃ i, i ≤ j ∧ (col.getD i none).isSome := by
  rw [fillna_ffill, ffillCol_getD_isSome none col j hj]
  simp

/-- Claim C6 witness: the amended statement instantiated at position 1 of the
column `[missing, 5]`. -/
theorem fillna_ffill_filled_iff_witness :
    1 < [none, some (5 : ℚ)].length ∧
      (((fillna_ffill [none, some (5 : ℚ)]).getD 1 none).isSome ↔
        ∃ i, i ≤ 1 ∧ (([none, some (5 : ℚ)].getD i none)).isSome) :=
  ⟨by decide, fillna_ffill_filled_iff [none, some 5] 1 (by decide)⟩

/-- Every date of the historical frame is bounded by `lastDate`. -/
theorem le_lastDate (ds : List ℕ) : ∀ x ∈ ds, x ≤ lastDate ds := by
  have key : ∀ (l : List ℕ) (a : ℕ),
      a ≤ l.foldl max a ∧ ∀ x ∈ l, x ≤ l.foldl max a := by
    intro l
    induction l with
    | nil =>
      intro a
      exact ⟨le_refl a, by simp⟩
    | cons y l ih =>
      intro a
      have h := ih (max a y)
      refine ⟨le_trans (le_max_left a y) h.1, ?_⟩
      intro x hx
      rcases List.mem_cons.mp hx with rfl | hx
      · exact le_trans (le_max_right a x) h.1
      · exact h.2 x hx
  exact (key ds 0).2

/-- The date column of the forecast frame is the future frame itself. -/
theorem forecast_membership_ds (data : List (ℕ × ℚ)) (model : ℕ → ℚ × ℚ × ℚ) :
    (forecast_membership data model).map FRow.ds
      = make_future_dataframe (data.map Prod.fst) 12 := by
  rw [forecast_membership, List.map_map]
  exact List.map_id _

/-- Claim C3, counterexample: on a two-point history the forecast frame does
not have 12 rows — Prophet's `predict` covers the historical dates too, so the
frame has `2 + 12 = 14` rows (and its first dates are the historical dates,
not future periods). -/
theorem forecast_row_count_cex :
    (forecast_membership [(0, (100 : ℚ)), (1, 110)] (fun _ => (0, 0, 0))).length
      ≠ 12 := by
  decide

/-- Claim C3 (amended): for a history of `n` records the forecast frame has
`n + 12` rows: the model's rows for the `n` historical dates in order,
followed by the 12 future periods `L + 1, …, L + 12` where `L` is the last
(largest) historical date; when the historical dates are strictly increasing
the whole date column is strictly increasing, and each of the last 12 dates
is strictly after every historical date. -/
theorem forecast_membership_structure (data : List (ℕ × ℚ))
    (model : ℕ → ℚ × ℚ × ℚ)
    (hs : List.Sorted (· < ·) (data.map Prod.fst)) :
    (forecast_membership data model).length = data.length + 12 ∧
    (forecast_membership data model).map FRow.ds
      = data.map Prod.fst
        ++ (List.range 12).map (fun i => lastDate (data.map Prod.fst) + 1 + i) ∧
    List.Sorted (· < ·) ((forecast_membership data model).map FRow.ds) ∧
    ∀ y ∈ ((forecast_membership data model).map FRow.ds).drop data.length,
      ∀ d ∈ data.map Prod.fst, d < y := by
  have hds := forecast_membership_ds data model
  have hlen : (forecast_membership data model).length = data.length + 12 := by
    simp [forecast_membership, make_future_dataframe]
  have hcol : (forecast_membership data model).map FRow.ds
      = data.map Prod.fst
        ++ (List.range 12).map (fun i => lastDate (data.map Prod.fst) + 1 + i) := by
    rw [hds, make_future_dataframe]
  have hfuture : ∀ y ∈ (List.range 12).map
      (fun i => lastDate (data.map Prod.fst) + 1 + i),
      ∀ d ∈ data.map Prod.fst, d < y := by
    intro y hy d hd
    obtain ⟨i, _, rfl⟩ := List.mem_map.mp hy
    have := le_lastDate (data.map Prod.fst) d hd
    omega
  refine ⟨hlen, hcol, ?_, ?_⟩
  · rw [hcol]
    rw [List.Sorted, List.pairwise_append]
    refine ⟨hs, ?_, ?_⟩
    · rw [List.pairwise_map]
      exact (List.pairwise_lt_range 12).imp (by omega)
    · intro d hd y hy
      exact hfuture y hy d hd
  · intro y hy d hd
    have hdl : (data.map Prod.fst).length = data.length := List.length_map _ _
    rw [hcol, ← hdl, List.drop_left] at hy
    exact hfuture y hy d hd

/-- Claim C3 witness: the amended statement instantiated on the two-point
history `(0, 100), (1, 110)` and a constant model. -/
theorem forecast_membership_structure_witness :
    List.Sorted (· < ·) ([((0 : ℕ), (100 : ℚ)), (1, 110)].map Prod.fst) ∧
      ((forecast_membership [((0 : ℕ), (100 : ℚ)), (1, 110)]
          (fun _ => (1, 2, 3))).length
        = [((0 : ℕ), (100 : ℚ)), (1, 110)].length + 12 ∧
      (forecast_membership [((0 : ℕ), (100 : ℚ)), (1, 110)]
          (fun _ => (1, 2, 3))).map FRow.ds
        = [((0 : ℕ), (100 : ℚ)), (1, 110)].map Prod.fst
          ++ (List.range 12).map
            (fun i =>
              lastDate ([((0 : ℕ), (100 : ℚ)), (1, 110)].map Prod.fst) + 1 + i) ∧
      List.Sorted (· < ·)
        ((forecast_membership [((0 : ℕ), (100 : ℚ)), (1, 110)]
            (fun _ => (1, 2, 3))).map FRow.ds) ∧
      ∀ y ∈ ((forecast_membership [((0 : ℕ), (100 : ℚ)), (1, 110)]
          (fun _ => (1, 2, 3))).map FRow.ds).drop
            [((0 : ℕ), (100 : ℚ)), (1, 110)].length,
        ∀ d ∈ [((0 : ℕ), (100 : ℚ)), (1, 110)].map Prod.fst, d < y) :=
  ⟨by decide,
   forecast_membership_structure [((0 : ℕ), (100 : ℚ)), (1, 110)]
     (fun _ => (1, 2, 3)) (by decide)⟩

/-- Function `pyround` returns the floor or its successor. -/
theorem pyround_le_bounds (q : ℚ) : ⌊q⌋ ≤ pyround q ∧ pyround q ≤ ⌊q⌋ + 1 := by
  unfold pyround
  split_ifs <;> omega

/-- Function `pyround` is a nearest-integer rounding: it never moves a value by more
than one half. -/
theorem pyround_dist (q : ℚ) : |(pyround q : ℚ) - q| ≤ 1 / 2 := by
  have h0 : (⌊q⌋ : ℚ) ≤ q := Int.floor_le q
  have h1 : q < ⌊q⌋ + 1 := Int.lt_floor_add_one q
  rw [abs_le]
  unfold pyround
  split_ifs with hc1 hc2 hc3
  · constructor <;> push_cast <;> linarith
  · rw [not_lt] at hc1
    constructor <;> push_cast <;> linarith
  · rw [not_lt] at hc1 hc2
    constructor <;> push_cast <;> linarith
  · rw [not_lt] at hc1 hc2
    constructor <;> push_cast <;> linarith

/-- Rounding half to even is monotone. -/
theorem pyround_mono {q r : ℚ} (h : q ≤ r) : pyround q ≤ pyround r := by
  rcases lt_or_le ⌊q⌋ ⌊r⌋ with hf | hf
  · have h1 := (pyround_le_bounds q).2
    have h2 := (pyround_le_bounds r).1
    omega
  · have hfe : ⌊q⌋ = ⌊r⌋ := le_antisymm (Int.floor_le_floor h) hf
    unfold pyround
    rw [hfe]
    split_ifs <;> simp_all only [not_lt] <;> first | omega | (exfalso; linarith)

/-- Claim C7: the dashboard computes
`Adjusted Call Volume = Membership Count * average_contact_rate` and
`Agents Needed = Adjusted Call Volume * AHT / (Occupancy/100)
/ (1 - Shrinkage/100) / (8 * 3600)` rounded to a nearest whole agent
(`pyround` moves any value by at most one half); at the defaults
`Membership Count = 100000`, `average_contact_rate = 0.1`, `AHT = 600`,
`Shrinkage = 25`, `Occupancy = 85` the adjusted volume is `10000` and
`Agents Needed` is `327`. -/
theorem dashboard_sensitivity_values :
    adjusted_volume 100000 (1 / 10) = 10000 ∧
    pyround (agents_needed (adjusted_volume 100000 (1 / 10)) 600 25 85) = 327 ∧
    ∀ q : ℚ, |(pyround q : ℚ) - q| ≤ 1 / 2 := by
  refine ⟨by norm_num [adjusted_volume], ?_, pyround_dist⟩
  have hv : agents_needed (adjusted_volume 100000 (1 / 10)) 600 25 85
      = 50000 / 153 := by
    norm_num [agents_needed, adjusted_volume]
  rw [hv]
  have hf : ⌊(50000 : ℚ) / 153⌋ = 326 := by
    rw [Int.floor_eq_iff]
    constructor <;> norm_num
  unfold pyround
  rw [hf]
  rw [if_neg (by norm_num), if_pos (by norm_num)]
  norm_num

/-- Claim C8: within the slider ranges (membership 50000-200000, AHT 300-900,
shrinkage 10-40, occupancy 70-95) and for any fixed nonnegative average
contact rate, the displayed `Agents Needed` is monotonically non-decreasing
in AHT and in membership, non-decreasing when occupancy decreases, and
non-decreasing when shrinkage increases. -/
theorem agents_needed_monotone (r m m2 aht aht2 s s2 o o2 : ℚ)
    (hr : 0 ≤ r)
    (hm : 50000 ≤ m) (hm2 : m ≤ 200000) (hm3 : 50000 ≤ m2) (hm4 : m2 ≤ 200000)
    (ha : 300 ≤ aht) (ha2 : aht ≤ 900) (ha3 : 300 ≤ aht2) (ha4 : aht2 ≤ 900)
    (hs : 10 ≤ s) (hs2 : s ≤ 40) (hs3 : 10 ≤ s2) (hs4 : s2 ≤ 40)
    (ho : 70 ≤ o) (ho2 : o ≤ 95) (ho3 : 70 ≤ o2) (ho4 : o2 ≤ 95) :
    (aht ≤ aht2 →
      pyround (agents_needed (adjusted_volume m r) aht s o)
        ≤ pyround (agents_needed (adjusted_volume m r) aht2 s o)) ∧
    (m ≤ m2 →
      pyround (agents_needed (adjusted_volume m r) aht s o)
        ≤ pyround (agents_needed (adjusted_volume m2 r) aht s o)) ∧
    (o2 ≤ o →
      pyround (agents_needed (adjusted_volume m r) aht s o)
        ≤ pyround (agents_needed (adjusted_volume m r) aht s o2)) ∧
    (s ≤ s2 →
      pyround (agents_needed (adjusted_volume m r) aht s o)
        ≤ pyround (agents_needed (adjusted_volume m r) aht s2 o)) := by
  have hA : (0 : ℚ) ≤ m * r := mul_nonneg (by linarith) hr
  have hA2 : (0 : ℚ) ≤ m2 * r := mul_nonneg (by linarith) hr
  refine ⟨fun h => pyround_mono ?_, fun h => pyround_mono ?_,
    fun h => pyround_mono ?_, fun h => pyround_mono ?_⟩ <;>
      unfold agents_needed adjusted_volume <;>
      gcongr <;> first | linarith | positivity

/-- Claim C8 witness: two concrete slider settings inside the ranges,
compared in the AHT direction. -/
theorem agents_needed_monotone_witness :
    pyround (agents_needed (adjusted_volume 100000 (1 / 10)) 600 25 85)
      ≤ pyround (agents_needed (adjusted_volume 100000 (1 / 10)) 700 25 85) :=
  (agents_needed_monotone (1 / 10) 100000 150000 600 700 25 30 85 80
    (by norm_num) (by norm_num) (by norm_num) (by norm_num) (by norm_num)
    (by norm_num) (by norm_num) (by norm_num) (by norm_num) (by norm_num)
    (by norm_num) (by norm_num) (by norm_num) (by norm_num) (by norm_num)
    (by norm_num) (by norm_num)).1 (by norm_num)

/-- Sum of an elementwise-scaled column. -/
theorem sum_map_mul (l : List ℚ) (r : ℚ) : (l.map (· * r)).sum = l.sum * r := by
  induction l with
  | nil => simp
  | cons x xs ih =>
    simp [ih]
    ring

/-- Claim C10: for a forecast table whose call-volume column is the membership
column scaled by one fixed rate `r` (which is how the pipeline writes it:
`Forecasted_Call_Volume = yhat * avg_contact_rate`) and whose membership
column has nonzero sum, the dashboard's reconstruction
`sum(Forecasted_Call_Volume) / sum(Forecasted_Membership)` recovers `r`
exactly. -/
theorem app_avg_contact_rate_recovers (fm fcv : List ℚ) (r : ℚ)
    (hlen : fcv.length = fm.length)
    (hpt : ∀ i, i < fm.length → fcv.getD i 0 = fm.getD i 0 * r)
    (hsum : fm.sum ≠ 0) :
    avg_contact_rate_app fm fcv = r := by
  have hmap : fcv = fm.map (· * r) := by
    apply List.ext_getElem (by simpa using hlen)
    intro i h1 h2
    have h3 : i < fm.length := by simpa using h2
    have h4 := hpt i h3
    rw [List.getD_eq_getElem _ _ h1, List.getD_eq_getElem _ _ h3] at h4
    simpa using h4
  rw [avg_contact_rate_app, hmap, sum_map_mul, mul_comm, mul_div_assoc,
    div_self hsum, mul_one]

/-- Claim C10 witness: the statement instantiated on the membership column
`[1, 2]`, rate `1/2` and call-volume column `[1/2, 1]`. -/
theorem app_avg_contact_rate_recovers_witness :
    [(1 : ℚ) / 2, 1].length = [(1 : ℚ), 2].length ∧
      ([(1 : ℚ), 2].sum ≠ 0) ∧
      avg_contact_rate_app [(1 : ℚ), 2] [(1 : ℚ) / 2, 1] = 1 / 2 :=
  ⟨by norm_num, by norm_num,
   app_avg_contact_rate_recovers [1, 2] [1 / 2, 1] (1 / 2) (by norm_num)
     (by
       intro i hi
       have hi2 : i < 2 := by simpa using hi
       interval_cases i <;> norm_num)
     (by norm_num)⟩

end WFM
